import Mathlib

/-
Verification of the data-loading and summary-metrics core of
`src/app.py` (a Streamlit dashboard).

Modelling conventions of the shallow embedding:
- A CSV cell is its raw character list (`Cell := List Char`); the empty
  cell stands for a missing value (pandas NaN after `read_csv`).
- Machine floating-point values are modelled as exact rationals; the
  float NaN produced by pandas aggregates is modelled as `Option.none`.
- Python exceptions are modelled with `Except PyErr`.
- The filesystem is the optional content of the one fixed backing file
  (`Option String`); `none` means the file does not exist.
- `f"{x:.kf}"` display formatting is modelled by rounding the rational
  to `k` decimal places (`fmtDp`).
-/

deriving instance DecidableEq for Except

namespace App

/-- The Python exceptions that the embedded code can raise:
`pandas.errors.EmptyDataError` (empty file), `pandas.errors.ParserError`
(tokenization failure), `KeyError` (missing column), and the
`TypeError` raised by `Series.mean()` on a non-numeric object column. -/
inductive PyErr where
  | emptyData
  | parserError
  | keyError
  | typeError
deriving DecidableEq

/-- A raw CSV cell: its characters. The empty cell models a missing
value (NaN). -/
abbrev Cell := List Char

/-- Split a character list on a separator character, keeping empty
segments, as `str.split(sep)` does. -/
def splitOnChar (c : Char) : List Char → List (List Char)
  | [] => [[]]
  | x :: xs =>
    let r := splitOnChar c xs
    if x = c then [] :: r
    else
      match r with
      | [] => [[x]]
      | h :: t => (x :: h) :: t

/-- The physical lines of the file content, with blank lines dropped
(pandas `read_csv` defaults to `skip_blank_lines=True`). -/
def tokenizeLines (content : String) : List (List Char) :=
  (splitOnChar '\n' content.data).filter (fun l => l ≠ [])

/-- Split one line into its comma-separated fields. -/
def parseLine (l : List Char) : List Cell :=
  splitOnChar ',' l

/-- The in-memory table produced by `pd.read_csv`: a header row of
column names and the data rows, all as raw cells. -/
structure RawTable where
  header : List Cell
  rows : List (List Cell)
deriving DecidableEq

/-- Embedding of `pd.read_csv` for this file: an empty file raises
`EmptyDataError`; a data row with more fields than the header raises
`ParserError`; otherwise the header and rows are returned raw
(`read_csv` enforces no schema, so cell contents never fail here). -/
def parseCSV (content : String) : Except PyErr RawTable :=
  match tokenizeLines content with
  | [] => .error .emptyData
  | h :: rs =>
    let header := parseLine h
    let rows := rs.map parseLine
    if rows.all (fun r => r.length ≤ header.length) then .ok ⟨header, rows⟩
    else .error .parserError

/-- True when every character is an ASCII digit. -/
def allDigits (cs : List Char) : Bool :=
  cs.all (fun c => c.isDigit)

/-- The natural number denoted by a digit string. -/
def natVal (cs : List Char) : ℕ :=
  cs.foldl (fun a c => a * 10 + (c.toNat - 48)) 0

/-- Numeric parse of an unsigned decimal literal (`"10"`, `"3.0"`,
`".5"`, `"3."`). -/
def parseNumCore (cs : List Char) : Option ℚ :=
  match splitOnChar '.' cs with
  | [ip] =>
    if !ip.isEmpty && allDigits ip then some (natVal ip) else none
  | [ip, fp] =>
    if (!ip.isEmpty || !fp.isEmpty) && allDigits ip && allDigits fp then
      some ((natVal ip : ℚ) + (natVal fp : ℚ) / 10 ^ fp.length)
    else none
  | _ => none

/-- Numeric parse of a cell, with an optional leading minus sign, as
pandas numeric-column inference does; `none` means the cell is not a
number. -/
def parseNum (s : Cell) : Option ℚ :=
  match s with
  | '-' :: t => (parseNumCore t).map (fun q => -q)
  | cs => parseNumCore cs

/-- Embedding of `load_data` (src/app.py lines 41-44): if the backing
file exists it is parsed with `read_csv` (parse failures propagate);
if it does not exist the absent-dataset sentinel `none` is returned. -/
def load_data (fs : Option String) : Except PyErr (Option RawTable) :=
  match fs with
  | some content => (parseCSV content).map some
  | none => .ok none

/-- `load_data` instrumented with the number of file parse attempts it
performs (0 or 1). -/
def load_dataT (fs : Option String) : Except PyErr (Option RawTable) × Nat :=
  match fs with
  | some content => ((parseCSV content).map some, 1)
  | none => (.ok none, 0)

/-- One call through the `@st.cache_data` wrapper around `load_data`:
if the single cache slot is filled, its value is returned with no file
access; otherwise `load_data` runs once and a successful result is
stored (a raised exception is not cached). The third component counts
file read/parse executions of the call. -/
def cachedCall (fs : Option String) (slot : Option (Option RawTable)) :
    Except PyErr (Option RawTable) × Option (Option RawTable) × Nat :=
  match slot with
  | some v => (.ok v, some v, 0)
  | none =>
    match load_data fs with
    | .ok v => (.ok v, some v, 1)
    | .error e => (.error e, none, 1)

/-- A sequence of `n` calls through the cache, threading the cache
slot; returns the list of results, the final slot, and the total number
of underlying file loads. -/
def runCalls (fs : Option String) : Nat → Option (Option RawTable) →
    List (Except PyErr (Option RawTable)) × Option (Option RawTable) × Nat
  | 0, s => ([], s, 0)
  | n + 1, s =>
    let (r, s1, k) := cachedCall fs s
    let (rs, s2, k2) := runCalls fs n s1
    (r :: rs, s2, k + k2)

/-- Index of a column name in a header, leftmost match
(`df['name']` lookup). -/
def findIdxFrom (name : Cell) : List Cell → Option Nat
  | [] => none
  | h :: t => if h = name then some 0 else (findIdxFrom name t).map (fun i => i + 1)

/-- Column name `daily_usage_hours`. -/
def udhCol : Cell := "daily_usage_hours".data

/-- Column name `depression_score`. -/
def depCol : Cell := "depression_score".data

/-- Column name `cyberbullying_experienced`. -/
def cybCol : Cell := "cyberbullying_experienced".data

/-- Embedding of `df['name']`: the cells of the named column, one per
row, a short row contributing a missing cell; a missing column raises
`KeyError`. -/
def colCells (t : RawTable) (name : Cell) : Except PyErr (List Cell) :=
  match findIdxFrom name t.header with
  | none => .error .keyError
  | some i => .ok (t.rows.map (fun r => r.getD i []))

/-- A cell that fits in a numeric column: empty (NaN) or a number. -/
def isNumericCell (c : Cell) : Bool :=
  c.isEmpty || (parseNum c).isSome

/-- Embedding of `Series.mean()` on a `read_csv` column: if any cell is
non-numeric the column has object dtype and `mean` raises `TypeError`;
otherwise NaN cells are skipped (`skipna=True`) and the mean of the
remaining values is returned, NaN (`none`) when there are none. -/
def seriesMean (cells : List Cell) : Except PyErr (Option ℚ) :=
  if cells.all isNumericCell then
    let nums := cells.filterMap parseNum
    if nums.isEmpty then .ok none
    else .ok (some (nums.sum / (nums.length : ℚ)))
  else .error .typeError

/-- Embedding of `(df['cyberbullying_experienced']=='Yes').sum()`:
the number of cells exactly equal to the string `Yes`. -/
def countYes (cells : List Cell) : Nat :=
  cells.countP (fun c => c = "Yes".data)

/-- Display formatting `f"{q:.kf}"` on the rational model: rounding to
`k` decimal places (round half up; no value these claims format sits at
a tie). -/
def fmtDp (k : Nat) (q : ℚ) : ℚ :=
  ((⌊q * 10 ^ k + 1 / 2⌋ : ℤ) : ℚ) / 10 ^ k

/-- The four scalar values shown by the metrics block; `none` is the
float NaN (displayed as `nan`). -/
structure DisplayedMetrics where
  totalUsers : Nat
  avgDailyUsage : Option ℚ
  avgDepressionScore : Option ℚ
  cyberbullyingRate : Option ℚ
deriving DecidableEq

/-- Embedding of the metrics block of `tab_prep` (src/app.py lines
258-266), in source order: `len(df)`, mean of `daily_usage_hours`
formatted `:.2f`, mean of `depression_score` formatted `:.1f`, and
`(df['cyberbullying_experienced']=='Yes').sum()/len(df)*100` formatted
`:.1f`, where division by a zero row count yields NaN under numpy
semantics (warnings are suppressed by the script). -/
def tab_prep_metrics (df : RawTable) : Except PyErr DisplayedMetrics :=
  let totalUsers := df.rows.length
  match colCells df udhCol with
  | .error e => .error e
  | .ok usageCells =>
    match seriesMean usageCells with
    | .error e => .error e
    | .ok avgUsage =>
      match colCells df depCol with
      | .error e => .error e
      | .ok depCells =>
        match seriesMean depCells with
        | .error e => .error e
        | .ok avgDep =>
          match colCells df cybCol with
          | .error e => .error e
          | .ok cybCells =>
            let rate : Option ℚ :=
              if totalUsers = 0 then none
              else some ((countYes cybCells : ℚ) / (totalUsers : ℚ) * 100)
            .ok ⟨totalUsers, avgUsage.map (fmtDp 2), avgDep.map (fmtDp 1),
                 rate.map (fmtDp 1)⟩

/-- One typed survey record, as §3 of the design document describes the
Dataset rows. -/
structure SpecRow where
  usage : ℚ
  dep : ℚ
  cyber : Cell
deriving DecidableEq

/-- Reference definition from the spec: `total_users` is the row
count. -/
def spec_total_users (rs : List SpecRow) : Nat :=
  rs.length

/-- Reference definition from the spec: arithmetic mean of
`daily_usage_hours` across all rows, formatted to two decimal
places. -/
def spec_avg_daily_usage (rs : List SpecRow) : ℚ :=
  fmtDp 2 ((rs.map (fun r => r.usage)).sum / (rs.length : ℚ))

/-- Reference definition from the spec: arithmetic mean of
`depression_score` across all rows, formatted to one decimal place. -/
def spec_avg_depression_score (rs : List SpecRow) : ℚ :=
  fmtDp 1 ((rs.map (fun r => r.dep)).sum / (rs.length : ℚ))

/-- Reference definition from the spec: count of rows whose
`cyberbullying_experienced` equals `Yes`, divided by `total_users`, as
a percentage to one decimal place. -/
def spec_cyberbullying_rate (rs : List SpecRow) : ℚ :=
  fmtDp 1 (((rs.filter (fun r => r.cyber = "Yes".data)).length : ℚ) /
    (rs.length : ℚ) * 100)

/-- A rendered Streamlit widget of the Data Prep tab, reduced to its
kind: a `st.metric` call (by label) or a static element (by tag). -/
inductive Widget where
  | metricW (label : String)
  | staticW (tag : String)
deriving DecidableEq

/-- True for the `st.metric` widgets. -/
def Widget.isMetric : Widget → Bool
  | .metricW _ => true
  | .staticW _ => false

/-- The static widgets of `tab_prep` rendered before the
`if df is not None` guard (src/app.py lines 161-253). -/
def prepTop : List Widget :=
  [.staticW "title", .staticW "data_collection_markdown",
   .staticW "divider", .staticW "raw_vs_clean_images",
   .staticW "divider", .staticW "cleaning_markdown", .staticW "divider"]

/-- The static widgets of `tab_prep` rendered after the guarded block
(src/app.py lines 274-400). -/
def prepBottom : List Widget :=
  [.staticW "divider", .staticW "eda_viz_tabs"]

/-- The widgets emitted inside the `if df is not None` block: the
overview header, the four metrics, and the two expanders. -/
def metricWidgets : List Widget :=
  [.staticW "dataset_overview_header",
   .metricW "Total Users", .metricW "Average Daily Usage",
   .metricW "Average Depression Score", .metricW "Cyberbullying Rate",
   .staticW "sample_expander", .staticW "summary_expander"]

/-- Embedding of the `tab_prep` render (src/app.py lines 161-400): the
metrics block runs only when `df is not None`; an exception raised
while computing the metrics aborts the whole render. -/
def tabPrepRender (df : Option RawTable) : Except PyErr (List Widget) :=
  match df with
  | none => .ok (prepTop ++ prepBottom)
  | some t =>
    (tab_prep_metrics t).map (fun _ => prepTop ++ metricWidgets ++ prepBottom)

/-- The mutable state visible to the metrics block: the loaded
dataframe and the widgets rendered so far. -/
structure World where
  df : RawTable
  rendered : List Widget
deriving DecidableEq

/-- Running the metrics block against a `World`: it reads `w.df`,
computes the metrics, and appends the emitted widgets to the render
log. -/
def metricsStep (w : World) : Except PyErr (DisplayedMetrics × World) :=
  (tab_prep_metrics w.df).map
    (fun m => (m, ⟨w.df, w.rendered ++ metricWidgets⟩))

/-- The worked example of §8 of the design document, as file
content. -/
def exampleCSV : String :=
  "daily_usage_hours,depression_score,cyberbullying_experienced\n3.0,10,Yes\n5.0,14,No\n2.0,6,Yes"

/-- The table `read_csv` produces from `exampleCSV`. -/
def exampleTable : RawTable :=
  ⟨[udhCol, depCol, cybCol],
   [["3.0".data, "10".data, "Yes".data],
    ["5.0".data, "14".data, "No".data],
    ["2.0".data, "6".data, "Yes".data]]⟩

/-- The typed rows of the worked example. -/
def exampleRows : List SpecRow :=
  [⟨3, 10, "Yes".data⟩, ⟨5, 14, "No".data⟩, ⟨2, 6, "Yes".data⟩]

/-- A backing file holding only the header: zero data rows. -/
def emptyHeaderCSV : String :=
  "daily_usage_hours,depression_score,cyberbullying_experienced"

/-- The zero-row table `read_csv` produces from `emptyHeaderCSV`. -/
def emptyTable : RawTable :=
  ⟨[udhCol, depCol, cybCol], []⟩

/-- A backing file whose `daily_usage_hours` column holds the
non-numeric value `abc`. -/
def badCellCSV : String :=
  "daily_usage_hours,depression_score,cyberbullying_experienced\nabc,10,Yes"

/-- The table `read_csv` produces from `badCellCSV`. -/
def badCellTable : RawTable :=
  ⟨[udhCol, depCol, cybCol], [["abc".data, "10".data, "Yes".data]]⟩

/-- A backing file whose second data row has more fields than the
header: `read_csv` raises `ParserError` on it. -/
def overfullCSV : String :=
  "a,b\n1,2\n1,2,3"

theorem parseNum_c30 : parseNum ['3', '.', '0'] = some 3 := by
  have h : parseNum ['3', '.', '0'] =
      some ((natVal ['3'] : ℚ) + (natVal ['0'] : ℚ) / 10 ^ (1 : ℕ)) := rfl
  have h3 : natVal ['3'] = 3 := by decide
  have h0 : natVal ['0'] = 0 := by decide
  rw [h, h3, h0]
  norm_num

theorem parseNum_c50 : parseNum ['5', '.', '0'] = some 5 := by
  have h : parseNum ['5', '.', '0'] =
      some ((natVal ['5'] : ℚ) + (natVal ['0'] : ℚ) / 10 ^ (1 : ℕ)) := rfl
  have h5 : natVal ['5'] = 5 := by decide
  have h0 : natVal ['0'] = 0 := by decide
  rw [h, h5, h0]
  norm_num

theorem parseNum_c20 : parseNum ['2', '.', '0'] = some 2 := by
  have h : parseNum ['2', '.', '0'] =
      some ((natVal ['2'] : ℚ) + (natVal ['0'] : ℚ) / 10 ^ (1 : ℕ)) := rfl
  have h2 : natVal ['2'] = 2 := by decide
  have h0 : natVal ['0'] = 0 := by decide
  rw [h, h2, h0]
  norm_num

theorem parseNum_c10 : parseNum ['1', '0'] = some 10 := by
  have h : parseNum ['1', '0'] = some ((natVal ['1', '0'] : ℚ)) := rfl
  have h10 : natVal ['1', '0'] = 10 := by decide
  rw [h, h10]
  norm_num

theorem parseNum_c14 : parseNum ['1', '4'] = some 14 := by
  have h : parseNum ['1', '4'] = some ((natVal ['1', '4'] : ℚ)) := rfl
  have h14 : natVal ['1', '4'] = 14 := by decide
  rw [h, h14]
  norm_num

theorem parseNum_c6 : parseNum ['6'] = some 6 := by
  have h : parseNum ['6'] = some ((natVal ['6'] : ℚ)) := rfl
  have h6 : natVal ['6'] = 6 := by decide
  rw [h, h6]
  norm_num

theorem filterMap_parseNum_of_map_some (cells : List Cell) (vs : List ℚ)
    (h : cells.map parseNum = vs.map some) :
    cells.filterMap parseNum = vs := by
  induction cells generalizing vs with
  | nil => cases vs with
    | nil => simp
    | cons v vt => simp at h
  | cons c ct ih =>
    cases vs with
    | nil => simp at h
    | cons v vt =>
      simp only [List.map_cons, List.cons.injEq] at h
      simp [List.filterMap_cons, h.1, ih vt h.2]

theorem all_numeric_of_map_some (cells : List Cell) (vs : List ℚ)
    (h : cells.map parseNum = vs.map some) :
    cells.all isNumericCell = true := by
  induction cells generalizing vs with
  | nil => simp
  | cons c ct ih =>
    cases vs with
    | nil => simp at h
    | cons v vt =>
      simp only [List.map_cons, List.cons.injEq] at h
      simp [List.all_cons, ih vt h.2, isNumericCell, h.1]

theorem length_of_map_parseNum_some (cells : List Cell) (vs : List ℚ)
    (h : cells.map parseNum = vs.map some) :
    cells.length = vs.length := by
  have hl := congrArg List.length h
  simpa using hl

theorem seriesMean_ok (cells : List Cell) (vs : List ℚ)
    (hmap : cells.map parseNum = vs.map some) (hne : vs ≠ []) :
    seriesMean cells = .ok (some (vs.sum / (vs.length : ℚ))) := by
  have hall := all_numeric_of_map_some cells vs hmap
  have hfm := filterMap_parseNum_of_map_some cells vs hmap
  simp [seriesMean, hall, hfm, hne]

theorem colCells_ok_length (t : RawTable) (name : Cell) (cs : List Cell)
    (h : colCells t name = .ok cs) : cs.length = t.rows.length := by
  unfold colCells at h
  cases hf : findIdxFrom name t.header with
  | none => rw [hf] at h; exact absurd h (by simp)
  | some i =>
    rw [hf] at h
    simp only [Except.ok.injEq] at h
    simp [← h]

theorem runCalls_filled_slot (fs : Option String) (v : Option RawTable) :
    ∀ m, runCalls fs m (some v) = (List.replicate m (.ok v), some v, 0) := by
  intro m
  induction m with
  | zero => simp [runCalls]
  | succ k ih => simp [runCalls, cachedCall, ih, List.replicate_succ]

/-- C1: starting from an empty cache, any sequence of `n ≥ 1` calls to
the cached loader performs exactly one file load and every call returns
the identical cached result. -/
theorem C1_repeated_calls_single_load (fs : Option String)
    (v : Option RawTable) (n : Nat)
    (hload : load_data fs = .ok v) (hn : 1 ≤ n) :
    runCalls fs n none = (List.replicate n (.ok v), some v, 1) := by
  cases n with
  | zero => exact absurd hn (by decide)
  | succ m =>
    simp [runCalls, cachedCall, hload, runCalls_filled_slot fs v m,
      List.replicate_succ]

/-- C1 witness: three calls against an absent backing file load it
once and all return the cached sentinel. -/
theorem C1_witness :
    runCalls none 3 none = (List.replicate 3 (Except.ok none), some none, 1) :=
  C1_repeated_calls_single_load none none 3 (by decide) (by decide)

/-- C2 counterexample: on a backing file with the required header and
zero data rows, the load succeeds and the metrics computation does not
fail: it silently returns NaN (`none`) for both means and for the
cyberbullying rate, refuting the claimed DivisionUndefined failure. -/
theorem C2_counterexample :
    load_data (some emptyHeaderCSV) = .ok (some emptyTable) ∧
    tab_prep_metrics emptyTable = .ok ⟨0, none, none, none⟩ := by
  constructor
  · decide
  · decide

/-- C2 amended: for every zero-row table whose header has the three
metric columns, the metrics computation succeeds with
`total_users = 0` and NaN for the mean and ratio metrics (pandas mean
of an empty column is NaN, and `0/0` under numpy semantics is NaN with
warnings suppressed). -/
theorem C2_zero_rows_returns_nan (t : RawTable)
    (h0 : t.rows = [])
    (hu : (findIdxFrom udhCol t.header).isSome = true)
    (hd : (findIdxFrom depCol t.header).isSome = true)
    (hc : (findIdxFrom cybCol t.header).isSome = true) :
    tab_prep_metrics t = .ok ⟨0, none, none, none⟩ := by
  obtain ⟨i, hi⟩ := Option.isSome_iff_exists.mp hu
  obtain ⟨j, hj⟩ := Option.isSome_iff_exists.mp hd
  obtain ⟨k, hk⟩ := Option.isSome_iff_exists.mp hc
  simp [tab_prep_metrics, colCells, hi, hj, hk, h0, seriesMean]

/-- C2 witness: the amended statement instantiated at the zero-row
table of the header-only backing file. -/
theorem C2_witness : tab_prep_metrics emptyTable = .ok ⟨0, none, none, none⟩ :=
  C2_zero_rows_returns_nan emptyTable (by decide) (by decide) (by decide)
    (by decide)

/-- C3 counterexample: on a backing file with the non-numeric value
`abc` in `daily_usage_hours`, the load succeeds (refuting the claimed
Malformed-input load failure); the value is kept as the string `abc`,
not coerced to zero. -/
theorem C3_counterexample :
    load_data (some badCellCSV) = .ok (some badCellTable) ∧
    colCells badCellTable udhCol = .ok ["abc".data] ∧
    parseNum "abc".data = none := by
  refine ⟨by decide, by decide, by decide⟩

/-- C3 amended: a non-numeric value in `daily_usage_hours` does not
make the load fail and is not coerced to zero; the error surfaces
later, when the metrics block computes the mean of the mixed column
and `Series.mean()` raises `TypeError`. -/
theorem C3_nonnumeric_mean_type_error (t : RawTable) (cells : List Cell)
    (hu : colCells t udhCol = .ok cells)
    (hbad : cells.all isNumericCell = false) :
    tab_prep_metrics t = .error .typeError := by
  simp [tab_prep_metrics, hu, seriesMean, hbad]

/-- C3 witness: the amended statement instantiated at the table loaded
from the `abc` backing file. -/
theorem C3_witness : tab_prep_metrics badCellTable = .error .typeError :=
  C3_nonnumeric_mean_type_error badCellTable ["abc".data] (by decide) (by decide)

/-- C4: when the backing file does not exist, the loader returns the
absent-dataset sentinel, raises nothing, and performs zero parse
attempts. -/
theorem C4_absent_file_sentinel :
    load_dataT none = (Except.ok none, 0) ∧ load_data none = Except.ok none :=
  ⟨rfl, rfl⟩

/-- C5: a parse failure on an existing backing file propagates to the
caller unchanged (never the sentinel), and the loader returns the
sentinel exactly when the file does not exist. -/
theorem C5_parse_error_propagates :
    (∀ content e, parseCSV content = .error e →
      load_data (some content) = .error e) ∧
    (∀ fs, load_data fs = .ok none ↔ fs = none) := by
  constructor
  · intro c e h
    simp [load_data, h, Except.map]
  · intro fs
    cases fs with
    | none => simp [load_data]
    | some c =>
      simp only [load_data]
      cases h : parseCSV c <;> simp [Except.map]

/-- C5 witness: the file whose last row has more fields than the
header raises `ParserError` through the loader. -/
theorem C5_witness : load_data (some overfullCSV) = .error .parserError :=
  C5_parse_error_propagates.1 overfullCSV .parserError (by decide)

/-- C6: on every non-empty dataset holding the three metric columns,
the metrics block computes exactly the reference definitions of the
spec: the row count, the two formatted arithmetic means, and the
formatted percentage of rows whose `cyberbullying_experienced` is
`Yes`. -/
theorem C6_metrics_match_reference (t : RawTable) (rs : List SpecRow)
    (ucells dcells ccells : List Cell)
    (hne : rs ≠ [])
    (hu : colCells t udhCol = .ok ucells)
    (humap : ucells.map parseNum = (rs.map SpecRow.usage).map some)
    (hd : colCells t depCol = .ok dcells)
    (hdmap : dcells.map parseNum = (rs.map SpecRow.dep).map some)
    (hc : colCells t cybCol = .ok ccells)
    (hcmap : ccells = rs.map SpecRow.cyber) :
    tab_prep_metrics t =
      .ok ⟨spec_total_users rs, some (spec_avg_daily_usage rs),
           some (spec_avg_depression_score rs),
           some (spec_cyberbullying_rate rs)⟩ := by
  have hrows : t.rows.length = rs.length := by
    have h1 := colCells_ok_length t udhCol ucells hu
    have h2 := length_of_map_parseNum_some ucells (rs.map SpecRow.usage) humap
    simp at h2
    omega
  have hmu := seriesMean_ok ucells (rs.map SpecRow.usage) humap (by simpa using hne)
  have hmd := seriesMean_ok dcells (rs.map SpecRow.dep) hdmap (by simpa using hne)
  have hcy : countYes ccells =
      (rs.filter (fun r => r.cyber = "Yes".data)).length := by
    rw [hcmap]
    show (rs.map SpecRow.cyber).countP (fun c => c = "Yes".data) = _
    rw [List.countP_map, List.countP_eq_length_filter]
    rfl
  have hne0 : t.rows.length ≠ 0 := by
    rw [hrows]
    simpa [List.length_eq_zero] using hne
  simp only [tab_prep_metrics, hu, hmu, hd, hmd, hc]
  simp only [hcy, hrows, if_neg hne0, Option.map_some, List.length_map]
  simp [hne0, hrows, hcy, spec_total_users, spec_avg_daily_usage,
    spec_avg_depression_score, spec_cyberbullying_rate]
  exact ⟨_, ⟨hne, rfl⟩, rfl⟩

/-- C6 witness: the reference equality instantiated at the three-row
worked example. -/
theorem C6_witness :
    tab_prep_metrics exampleTable =
      .ok ⟨spec_total_users exampleRows, some (spec_avg_daily_usage exampleRows),
           some (spec_avg_depression_score exampleRows),
           some (spec_cyberbullying_rate exampleRows)⟩ :=
  C6_metrics_match_reference exampleTable exampleRows
    ["3.0".data, "5.0".data, "2.0".data]
    ["10".data, "14".data, "6".data]
    ["Yes".data, "No".data, "Yes".data]
    (by simp [exampleRows])
    (by decide)
    (by simp [exampleRows, parseNum_c30, parseNum_c50, parseNum_c20])
    (by decide)
    (by simp [exampleRows, parseNum_c10, parseNum_c14, parseNum_c6])
    (by decide)
    (by simp [exampleRows])

/-- C7: on the three-row worked example of the spec, the metrics are
exactly `total_users = 3`, `avg_daily_usage = 3.33`,
`avg_depression_score = 10.0`, `cyberbullying_rate = 66.7`. -/
theorem C7_worked_example :
    load_data (some exampleCSV) = .ok (some exampleTable) ∧
    tab_prep_metrics exampleTable =
      .ok ⟨3, some (333 / 100), some 10, some (667 / 10)⟩ := by
  constructor
  · decide
  · have hu : colCells exampleTable udhCol =
        .ok ["3.0".data, "5.0".data, "2.0".data] := by decide
    have hd : colCells exampleTable depCol =
        .ok ["10".data, "14".data, "6".data] := by decide
    have hc : colCells exampleTable cybCol =
        .ok ["Yes".data, "No".data, "Yes".data] := by decide
    have hmu := seriesMean_ok ["3.0".data, "5.0".data, "2.0".data]
      [3, 5, 2] (by simp [parseNum_c30, parseNum_c50, parseNum_c20])
      (by simp)
    have hmd := seriesMean_ok ["10".data, "14".data, "6".data]
      [10, 14, 6] (by simp [parseNum_c10, parseNum_c14, parseNum_c6])
      (by simp)
    have hcy : countYes ["Yes".data, "No".data, "Yes".data] = 2 := by decide
    simp only [tab_prep_metrics, hu, hmu, hd, hmd, hc]
    norm_num [hcy, exampleTable, fmtDp]

/-- C8: the metrics block is a pure, deterministic function of the
dataset: two runs over worlds holding the same dataset produce
identical metric values, and a run leaves the dataset unmodified. -/
theorem C8_metrics_pure (w1 w2 : World) (h : w1.df = w2.df) :
    (metricsStep w1).map Prod.fst = (metricsStep w2).map Prod.fst ∧
    (metricsStep w1).map (fun p => p.2.df) =
      (tab_prep_metrics w1.df).map (fun _ => w1.df) := by
  constructor
  · cases he : tab_prep_metrics w2.df with
    | ok m => simp [metricsStep, h, he, Except.map]
    | error e => simp [metricsStep, h, he, Except.map]
  · cases he : tab_prep_metrics w1.df with
    | ok m => simp [metricsStep, he, Except.map]
    | error e => simp [metricsStep, he, Except.map]

/-- C8 witness: two worlds sharing the worked-example dataset but
holding different render logs produce identical metric values, and
the dataset survives the run unchanged. -/
theorem C8_witness :
    (metricsStep ⟨exampleTable, []⟩).map Prod.fst =
      (metricsStep ⟨exampleTable, [Widget.staticW "prior"]⟩).map Prod.fst ∧
    (metricsStep ⟨exampleTable, []⟩).map (fun p => p.2.df) =
      (tab_prep_metrics exampleTable).map (fun _ => exampleTable) :=
  C8_metrics_pure ⟨exampleTable, []⟩ ⟨exampleTable, [Widget.staticW "prior"]⟩
    rfl

/-- C9: when the loader yields the absent-dataset sentinel, the Data
Prep tab renders only its static widgets: the metrics block is skipped
entirely and no metric widget is displayed. -/
theorem C9_sentinel_skips_metrics :
    tabPrepRender none = .ok (prepTop ++ prepBottom) ∧
    (prepTop ++ prepBottom).filter Widget.isMetric = [] := by
  refine ⟨by decide, by decide⟩

/-- C10: the cyberbullying numerator counts exactly the cells that are
the literal string `Yes`, and prepending a row with any other value
(case variants or a missing value included) leaves the count
unchanged. -/
theorem C10_exact_yes_match (cells : List Cell) (v : Cell)
    (hv : v ≠ "Yes".data) :
    countYes cells = (cells.filter (fun c => c = "Yes".data)).length ∧
    countYes (v :: cells) = countYes cells := by
  refine ⟨by simp [countYes, List.countP_eq_length_filter], ?_⟩
  simp [countYes, List.countP_cons, hv]

/-- C10 witness: a lower-case `yes` cell is not counted. -/
theorem C10_witness :
    countYes ["Yes".data, "yes".data] =
      (["Yes".data, "yes".data].filter (fun c => c = "Yes".data)).length ∧
    countYes ("yes".data :: ["Yes".data, "yes".data]) =
      countYes ["Yes".data, "yes".data] :=
  C10_exact_yes_match ["Yes".data, "yes".data] "yes".data (by decide)

end App
